import Mathlib

/-
Verification of behavioural claims about the Remote-interview-platform
repository. Each source function that a claim touches is shallowly embedded
as an executable Lean definition; theorems about these definitions settle
the claims.
-/

set_option autoImplicit false

namespace InterviewPlatform

/-! ## Identity and call-client data model

Mirrors the shape consumed from the auth provider in
src/components/providers/StreamVideoProvider (unnamed/part_001) and the
client object constructed there. -/

/-- The identity object: external id, optional name fields, avatar URL. -/
structure StreamUser where
  id : String
  firstName : Option String
  lastName : Option String
  imageUrl : String
  deriving Repr, DecidableEq

/-- The call-client handle constructed by the provider: bound to one api key,
one identity (id, display name, avatar) and one token. -/
structure VideoClient where
  apiKey : String
  userId : String
  userName : String
  userImage : String
  token : String
  deriving Repr, DecidableEq

/-- JavaScript `x || ""` on an optional string field. -/
def jsOrEmpty (x : Option String) : String :=
  match x with
  | none => ""
  | some s => s

/-- Display name built in part_001 line 42:
`(user.firstName OR empty) ++ " " ++ (user.lastName OR empty)` trimmed,
falling back to the id when the trimmed result is empty. -/
def displayName (u : StreamUser) : String :=
  let s := (jsOrEmpty u.firstName ++ " " ++ jsOrEmpty u.lastName).trim
  if s = "" then u.id else s

/-- Client construction, part_001 lines 38-46. -/
def mkClient (apiKey : String) (u : StreamUser) (token : String) : VideoClient :=
  { apiKey := apiKey
    userId := u.id
    userName := displayName u
    userImage := u.imageUrl
    token := token }

/-! ## StreamVideoProvider effect body (initClient), part_001 lines 18-59

The async function runs once per effect epoch. Its observable outcome per
epoch: the value passed to setStreamVideoClient (if any), the value left in
the epoch-local `client` variable (what cleanup later sees), and the toasts
emitted. The only suspension point is the awaited token fetch, so the
`mounted` flag is sampled once, when that await resolves; no further
suspension separates the post-await check, the construction and the publish
(single-threaded event loop), hence one Boolean models every read of
`mounted` inside one run. Construction itself can throw; `constructionFails`
models that, in which case the `client` local is never assigned. -/

/-- Outcome of one run of initClient. -/
structure InitOutcome where
  published : Option VideoClient
  clientVar : Option VideoClient
  toasts : List String
  deriving Repr, DecidableEq

/-- Toast shown by the catch block of initClient, part_001 line 56. -/
def failedConnectToast : String := "Failed to connect to video service"

/-- One run of initClient: early-return unless the identity is loaded and
present; await the token; discard the result when no longer mounted;
otherwise construct the client and publish it; any thrown error is caught
and turned into a toast when still mounted. -/
def initClient (isLoaded : Bool) (user : Option StreamUser) (apiKey : String)
    (tokenResult : Except String String) (mounted : Bool)
    (constructionFails : Bool) : InitOutcome :=
  if !isLoaded || user.isNone then
    { published := none, clientVar := none, toasts := [] }
  else
    match user with
    | none => { published := none, clientVar := none, toasts := [] }
    | some u =>
      match tokenResult with
      | Except.error _ =>
        { published := none, clientVar := none
          toasts := if mounted then [failedConnectToast] else [] }
      | Except.ok token =>
        if !mounted then
          { published := none, clientVar := none, toasts := [] }
        else if constructionFails then
          { published := none, clientVar := none
            toasts := if mounted then [failedConnectToast] else [] }
        else
          let c := mkClient apiKey u token
          { published := if mounted then some c else none
            clientVar := some c
            toasts := [] }

/-! ## StreamVideoProvider effect cleanup, part_001 lines 63-70

The cleanup clears `mounted`, then disconnects the epoch-local client only
when one exists AND the document is not hidden; a rejected disconnect is
routed to console.error by `.catch`, never rethrown. -/

/-- Outcome of one run of the effect cleanup. -/
structure CleanupOutcome where
  disconnected : Option VideoClient
  loggedDisconnectError : Bool
  threw : Bool
  deriving Repr, DecidableEq

/-- The cleanup function returned by the effect. `disconnectFails` models the
disconnectUser promise rejecting. -/
def cleanup (clientVar : Option VideoClient) (documentHidden : Bool)
    (disconnectFails : Bool) : CleanupOutcome :=
  match clientVar with
  | none => { disconnected := none, loggedDisconnectError := false, threw := false }
  | some c =>
    if !documentHidden then
      { disconnected := some c
        loggedDisconnectError := disconnectFails
        threw := false }
    else
      { disconnected := none, loggedDisconnectError := false, threw := false }

/-! ## StreamVideoProvider render, part_001 lines 73-88 -/

/-- What the provider renders around its children. -/
inductive ProviderRender where
  | childrenOnly
  | loader
  | videoWithChildren (c : VideoClient)
  deriving Repr, DecidableEq

/-- The render body: pass children through while the identity is not loaded
or absent; show the loader for a signed-in user with no published client;
otherwise wrap children in the video context. -/
def renderProvider (isLoaded : Bool) (user : Option StreamUser)
    (streamVideoClient : Option VideoClient) : ProviderRender :=
  if !isLoaded then ProviderRender.childrenOnly
  else
    match user with
    | none => ProviderRender.childrenOnly
    | some _ =>
      match streamVideoClient with
      | none => ProviderRender.loader
      | some c => ProviderRender.videoWithChildren c

/-! ## Meeting actions hook (useMeetingActions), unnamed/part_002

Both operations read the client from context and the router; their
observable outcome is the navigation performed (if any) and the toasts
emitted. createInstantMeeting awaits getOrCreate before pushing the route,
so the navigation field is produced only from the success branch of the
creation result. -/

/-- Observable outcome of one meeting action. -/
structure ActionOutcome where
  navigation : Option String
  toasts : List String
  deriving Repr, DecidableEq

/-- Toast emitted when the context holds no client, part_002 lines 11 and 44. -/
def notInitializedToast : String :=
  "Video service not initialized. Please try again in a moment."

/-- Success toast, part_002 line 31. -/
def meetingCreatedToast : String := "Meeting Created"

/-- Toast for creation errors whose message mentions the token, part_002 line 35. -/
def connectionNotReadyToast : String :=
  "Connection not ready. Please try again in a moment."

/-- Toast for all other creation failures, part_002 line 37. -/
def failedCreateToast : String := "Failed to create meeting. Please try again."

/-- Containment of one character list in another, scanning left to right. -/
def charsContain (sub : List Char) : List Char → Bool
  | [] => sub.isEmpty
  | c :: tail => sub.isPrefixOf (c :: tail) || charsContain sub tail

/-- JavaScript stringIncludes: substring containment, used for
errorMessage.includes in part_002 and useGetcallById. -/
def stringIncludes (s sub : String) : Bool :=
  charsContain sub.toList s.toList

/-- A thrown value in the catch block: `some msg` when it is an Error with
that message, `none` for a non-Error throw (instanceof check fails). -/
def CaughtError : Type := Option String

/-- createInstantMeeting, part_002 lines 9-40. `genId` is the value of
crypto.randomUUID for this invocation; `createResult` is how the awaited
getOrCreate resolved. The call object carries the generated id, so the
route pushed on success is built from `genId`. -/
def createInstantMeeting (client : Option VideoClient) (genId : String)
    (createResult : Except (Option String) Unit) : ActionOutcome :=
  match client with
  | none => { navigation := none, toasts := [notInitializedToast] }
  | some _ =>
    match createResult with
    | Except.ok _ =>
      { navigation := some ("/meetings/" ++ genId)
        toasts := [meetingCreatedToast] }
    | Except.error e =>
      { navigation := none
        toasts :=
          [match e with
           | some msg =>
             if stringIncludes msg "token" then connectionNotReadyToast
             else failedCreateToast
           | none => failedCreateToast] }

/-- joinMeeting, part_002 lines 42-49: with a client, push the route at once;
no session lookup or creation happens in this function. -/
def joinMeeting (client : Option VideoClient) (callId : String) : ActionOutcome :=
  match client with
  | none => { navigation := none, toasts := [notInitializedToast] }
  | some _ => { navigation := some ("/meetings/" ++ callId), toasts := [] }

/-! ## MeetingModal.handleStart, src/components/MeetingModal.tsx lines 21-31

In join mode the id is the last element of meetingURL.split on the slash
(Array.prototype.pop on the result of String.prototype.split with a
one-character separator, which String.splitOn mirrors); joinMeeting runs
only when that segment is truthy (non-empty). Either way the input is
cleared and onClose runs. -/

/-- Observable outcome of pressing the Start/Join button. -/
structure ModalOutcome where
  navigation : Option String
  toasts : List String
  createInvoked : Bool
  joinInvokedWith : Option String
  inputCleared : Bool
  closed : Bool
  deriving Repr, DecidableEq

/-- JavaScript String.prototype.split with a one-character separator, on
character lists: the empty input yields one empty segment, a separator
starts a new empty segment, any other character extends the first
segment. -/
def splitChars (sep : Char) : List Char → List (List Char)
  | [] => [[]]
  | c :: rest =>
    let r := splitChars sep rest
    if c = sep then [] :: r
    else
      match r with
      | [] => [[c]]
      | s :: ss => (c :: s) :: ss

/-- JavaScript split of a string on a one-character separator. -/
def jsSplit (s : String) (sep : Char) : List String :=
  (splitChars sep s.toList).map (fun cs => String.mk cs)

/-- The final slash-separated segment of the pasted text:
meetingURL.split on the slash, then pop. The split never returns an empty
array, so the JS pop always yields a string here; getLastD with an empty
default is the same observable value. -/
def lastSegment (meetingURL : String) : String :=
  (jsSplit meetingURL '/').getLastD ""

/-- handleStart for the modal. `client` is the context client seen by the
meeting-actions hook; `createResult` is how getOrCreate would resolve when
create mode runs. -/
def handleStart (isJoinMeeting : Bool) (meetingURL : String)
    (client : Option VideoClient) (genId : String)
    (createResult : Except (Option String) Unit) : ModalOutcome :=
  if isJoinMeeting then
    let meetingId := lastSegment meetingURL
    if meetingId ≠ "" then
      let r := joinMeeting client meetingId
      { navigation := r.navigation, toasts := r.toasts
        createInvoked := false, joinInvokedWith := some meetingId
        inputCleared := true, closed := true }
    else
      { navigation := none, toasts := []
        createInvoked := false, joinInvokedWith := none
        inputCleared := true, closed := true }
  else
    let r := createInstantMeeting client genId createResult
    { navigation := r.navigation, toasts := r.toasts
      createInvoked := true, joinInvokedWith := none
      inputCleared := true, closed := true }

/-! ## Call lookup hook (useGetcallById), src/hooks/useGetcallById.ts

The effect epoch captures `client` from the render. getCall runs once
immediately; a setInterval with a fixed 1000 ms period then invokes getCall
again on each tick, but only when the captured client is absent. The
cleanup clears the mounted flag and the interval. getCall itself
early-returns when the client is absent, fetches once otherwise, and on a
thrown error (while mounted) stops loading and toasts, distinguishing a
message mentioning not-found from other failures. -/

/-- A resolved call session object. -/
structure CallSession where
  callType : String
  id : String
  deriving Repr, DecidableEq

/-- The fixed retry period of the setInterval, line 51. -/
def retryIntervalMs : Nat := 1000

/-- Whether getCall is invoked at interval tick `k` of an effect epoch
(tick 0 is the immediate call at line 43; ticks 1, 2, ... are interval
firings). `unmountTick` is the tick at which the consumer unmounts
(`none` = never during this epoch); clearInterval stops all firings from
that tick on. An interval firing invokes getCall only when the captured
client is absent, line 47. -/
def getCallInvoked (client : Option VideoClient) (unmountTick : Option Nat)
    (k : Nat) : Bool :=
  k == 0 ||
    ((match unmountTick with
      | none => true
      | some u => decide (k < u)) && client.isNone)

/-- Whether the invocation at tick `k` actually performs a session fetch:
getCall early-returns without a client, line 14. -/
def fetchPerformed (client : Option VideoClient) (unmountTick : Option Nat)
    (k : Nat) : Bool :=
  getCallInvoked client unmountTick k && client.isSome

/-- State owned by useGetcallById. -/
structure CallLookupState where
  call : Option CallSession
  isCallLoading : Bool
  toasts : List String
  deriving Repr, DecidableEq

/-- Initial hook state: no call, loading true (lines 6-7). -/
def initialCallLookupState : CallLookupState :=
  { call := none, isCallLoading := true, toasts := [] }

/-- Toast for a fetch error whose message mentions not-found, line 35. -/
def meetingNotFoundToast : String := "Meeting not found or has ended"

/-- Toast for any other fetch error, line 37. -/
def failedLoadToast : String := "Failed to load meeting"

/-- One run of getCall over the hook state, lines 13-41. `fetchResult` is
how the awaited call.get resolved (`some msg` an Error with that message,
`none` a non-Error throw); `mounted` is the epoch flag when it resolves. -/
def getCall (client : Option VideoClient) (id : String)
    (fetchResult : Except (Option String) Unit) (mounted : Bool)
    (s : CallLookupState) : CallLookupState :=
  match client with
  | none => s
  | some _ =>
    match fetchResult with
    | Except.ok _ =>
      if mounted then
        { s with call := some { callType := "default", id := id }
                 isCallLoading := false }
      else s
    | Except.error e =>
      if mounted then
        { s with isCallLoading := false
                 toasts := s.toasts ++
                   [match e with
                    | some msg =>
                      if stringIncludes msg "not found" then meetingNotFoundToast
                      else failedLoadToast
                    | none => failedLoadToast] }
      else s

/-! ## Meeting page render, src/app/(root)/meetings/[id]/page.tsx -/

/-- What the meeting page renders. -/
inductive PageRender where
  | loadingView
  | notFoundView
  | setupView
  | roomView
  deriving Repr, DecidableEq

/-- The page body: loader while the user or the call is loading; a terminal
not-found view when no call resolved; otherwise setup then room. -/
def renderMeetingPage (isLoaded : Bool) (isCallLoading : Bool)
    (call : Option CallSession) (isSetupComplete : Bool) : PageRender :=
  if !isLoaded || isCallLoading then PageRender.loadingView
  else
    match call with
    | none => PageRender.notFoundView
    | some _ =>
      if !isSetupComplete then PageRender.setupView else PageRender.roomView

/-! ## Directory records and the sync mutation

The convex backend module (convex/users.ts with syncUser and
getUserByClerkId) is not among the source files; only its callers
(NavBar.tsx, useUserRole.ts) and a generic snippet in the setup guide are.
The mutation is therefore modelled from the spec. -/

/-- A directory record: identity mirror plus role and creation timestamp. -/
structure UserDoc where
  name : String
  email : String
  clerkId : String
  image : Option String
  role : String
  createdAt : Nat
  deriving Repr, DecidableEq

/-- Arguments of the sync mutation (section 6 of the spec; NavBar.tsx
lines 18-27 supply them). -/
structure SyncArgs where
  name : String
  email : String
  clerkId : String
  image : Option String
  deriving Repr, DecidableEq

/-- First record in the table matching the external id (the by-clerk-id
index lookup with .first). -/
def firstByClerkId (db : List UserDoc) (clerkId : String) : Option UserDoc :=
  db.find? (fun d => d.clerkId == clerkId)

/-- Patch of the first matching record: refresh name, email and image,
leave role and createdAt untouched. -/
def patchFirst (clerkId : String) (args : SyncArgs) : List UserDoc → List UserDoc
  | [] => []
  | d :: rest =>
    if d.clerkId == clerkId then
      { d with name := args.name, email := args.email, image := args.image } :: rest
    else d :: patchFirst clerkId args rest

/-- The record inserted on first sync. -/
def freshUserDoc (args : SyncArgs) (now : Nat) : UserDoc :=
  { name := args.name, email := args.email, clerkId := args.clerkId
    image := args.image, role := "candidate", createdAt := now }

/-- Modelled from the spec: the syncUser mutation of convex/users.ts, which
is not among the source files (only its callers are). Per spec section 4.1
and section 6, it upserts a record keyed by the external id: when a record
exists, name, email and image are refreshed and the role is preserved;
otherwise a record is inserted with role candidate and a creation
timestamp. `now` is the timestamp taken at insertion. -/
def syncUser (db : List UserDoc) (args : SyncArgs) (now : Nat) : List UserDoc :=
  match firstByClerkId db args.clerkId with
  | some _ => patchFirst args.clerkId args db
  | none => db ++ [freshUserDoc args now]

/-- Number of records in the table carrying the given external id. -/
def countByClerkId (db : List UserDoc) (clerkId : String) : Nat :=
  db.countP (fun d => d.clerkId == clerkId)

/-- The field refresh syncUser applies to an existing record. -/
def patchDoc (args : SyncArgs) (d : UserDoc) : UserDoc :=
  { d with name := args.name, email := args.email, image := args.image }

/-! ## Role resolver (useUSerRole), src/hooks/useUserRole.ts

The reactive query result is undefined while in flight, null for a loaded
query with no matching record, or the record itself. -/

/-- Result of the reactive getUserByClerkId query as seen by the hook. -/
inductive QueryResult where
  | pending
  | noUser
  | found (r : UserDoc)
  deriving Repr, DecidableEq

/-- The clerkId argument passed to the query, line 13: the optional-chained
user id with the JS fallback to the empty-string sentinel. -/
def roleQueryArg (user : Option StreamUser) : String :=
  jsOrEmpty (user.map (fun u => u.id))

/-- The record returned by the hook. -/
structure RoleInfo where
  isLoading : Bool
  isInterviewer : Bool
  isCandidate : Bool
  deriving Repr, DecidableEq

/-- The hook body, lines 9-25: isLoading is the undefined check; the two
role flags optional-chain into the record and compare with the role
literals (undefined or null never equals a string). -/
def useUSerRole (userData : QueryResult) : RoleInfo :=
  { isLoading := userData == QueryResult.pending
    isInterviewer :=
      match userData with
      | QueryResult.found r => r.role == "interviewer"
      | _ => false
    isCandidate :=
      match userData with
      | QueryResult.found r => r.role == "candidate"
      | _ => false }

/-! ## Shared sample values for witnesses and counterexamples -/

/-- A sample identity. -/
def sampleUser : StreamUser :=
  { id := "u1", firstName := none, lastName := none, imageUrl := "img" }

/-- The client the provider constructs for sampleUser. -/
def sampleClient : VideoClient := mkClient "key" sampleUser "tok"

/-! ## Claims about the provider lifecycle -/

/-- Claim C1 (amended): on teardown of an effect epoch of the call-client
lifecycle, if a handle was constructed in that epoch and the document is
not hidden at teardown time, the cleanup disconnects exactly that (most
recently constructed) handle; a disconnect failure is logged and the
cleanup never throws into the caller. (The unamended claim, without the
document-visibility condition, fails: see the counterexample.) -/
theorem claim_C1_teardown_disconnect (clientVar : Option VideoClient)
    (documentHidden disconnectFails : Bool) (c : VideoClient)
    (hc : clientVar = some c) (hv : documentHidden = false) :
    cleanup clientVar documentHidden disconnectFails =
      { disconnected := some c
        loggedDisconnectError := disconnectFails
        threw := false } := by
  subst hc hv
  simp [cleanup]

/-- Witness for claim C1: the amended theorem at a concrete epoch. -/
theorem claim_C1_witness :
    cleanup (some sampleClient) false true =
      { disconnected := some sampleClient
        loggedDisconnectError := true
        threw := false } :=
  claim_C1_teardown_disconnect (some sampleClient) false true sampleClient rfl rfl

/-- Counterexample for claim C1 as stated: in an epoch that constructed a
handle (clientVar holds it), a teardown while the document is hidden
disconnects nothing, leaving the handle live. -/
theorem claim_C1_counterexample :
    (initClient true (some sampleUser) "key" (Except.ok "tok") true false).clientVar
      = some sampleClient ∧
    (cleanup (some sampleClient) true false).disconnected = none := by
  constructor
  · rfl
  · rfl

/-- Claim C2: when the mounted flag is already cleared by the time the token
fetch resolves, initClient publishes nothing, constructs no handle (the
epoch-local client variable stays empty) and emits no toast: the fetched
result is discarded with no state update on the unmounted component. -/
theorem claim_C2_no_publish_after_unmount (isLoaded : Bool)
    (user : Option StreamUser) (apiKey : String)
    (tokenResult : Except String String) (constructionFails : Bool) :
    initClient isLoaded user apiKey tokenResult false constructionFails =
      { published := none, clientVar := none, toasts := [] } := by
  unfold initClient
  cases user <;> cases isLoaded <;> cases tokenResult <;>
    simp [Option.isNone]

/-- Witness for claim C2: a concrete unmounted epoch with a loaded, present
identity and a successfully fetched token still publishes nothing. -/
theorem claim_C2_witness :
    initClient true (some sampleUser) "key" (Except.ok "tok") false false =
      { published := none, clientVar := none, toasts := [] } :=
  claim_C2_no_publish_after_unmount true (some sampleUser) "key"
    (Except.ok "tok") false

/-- Claim C3 (amended): when the token request or client construction throws
while the identity is loaded and present and the component is still
mounted, a user-visible toast is surfaced, no handle is published and the
tree does not crash — but the provider then renders the loading indicator,
not the descendants; descendants render without video context only while
the identity is not loaded or is absent. (The unamended claim, that the
descendants still render in the Failed state, fails: see the
counterexample.) -/
theorem claim_C3_failure_toast_and_loader (u : StreamUser)
    (apiKey msg tok : String) (constructionFails : Bool) :
    (initClient true (some u) apiKey (Except.error msg) true constructionFails).toasts
      = [failedConnectToast] ∧
    (initClient true (some u) apiKey (Except.error msg) true constructionFails).published
      = none ∧
    (initClient true (some u) apiKey (Except.ok tok) true true).toasts
      = [failedConnectToast] ∧
    (initClient true (some u) apiKey (Except.ok tok) true true).published = none ∧
    (initClient true (some u) apiKey (Except.ok tok) true true).clientVar = none ∧
    renderProvider true (some u) none = ProviderRender.loader ∧
    (∀ user svc, renderProvider false user svc = ProviderRender.childrenOnly) ∧
    (∀ svc, renderProvider true none svc = ProviderRender.childrenOnly) := by
  refine ⟨?_, ?_, ?_, ?_, ?_, rfl, ?_, ?_⟩
  · simp [initClient]
  · simp [initClient]
  · simp [initClient]
  · simp [initClient]
  · simp [initClient]
  · intro user svc; simp [renderProvider]
  · intro svc; rfl

/-- Witness for claim C3: the amended theorem at a concrete epoch, for both
failure modes — the token fetch throwing and the client construction
throwing after a fetched token. -/
theorem claim_C3_witness :
    (initClient true (some sampleUser) "key" (Except.error "boom") true false).toasts
      = [failedConnectToast] ∧
    (initClient true (some sampleUser) "key" (Except.ok "tok") true true).toasts
      = [failedConnectToast] ∧
    (initClient true (some sampleUser) "key" (Except.ok "tok") true true).published
      = none ∧
    renderProvider true (some sampleUser) none = ProviderRender.loader :=
  ⟨(claim_C3_failure_toast_and_loader sampleUser "key" "boom" "tok" false).1,
   (claim_C3_failure_toast_and_loader sampleUser "key" "boom" "tok" false).2.2.1,
   (claim_C3_failure_toast_and_loader sampleUser "key" "boom" "tok" false).2.2.2.1,
   (claim_C3_failure_toast_and_loader sampleUser "key" "boom" "tok" false).2.2.2.2.2.1⟩

/-- Counterexample for claim C3 as stated: in the Failed state with a
loaded, present identity (toast emitted, nothing published) the provider
renders the loader, so the descendants are withheld rather than rendered
without video context. -/
theorem claim_C3_counterexample :
    (initClient true (some sampleUser) "key" (Except.error "boom") true false).toasts
      = [failedConnectToast] ∧
    (initClient true (some sampleUser) "key" (Except.error "boom") true false).published
      = none ∧
    renderProvider true (some sampleUser) none ≠ ProviderRender.childrenOnly := by
  refine ⟨rfl, rfl, ?_⟩
  intro h
  exact ProviderRender.noConfusion h

/-! ## Claims about the meeting actions -/

/-- Claim C4: with a ready client, createInstantMeeting navigates to the
route built from the generated id exactly when the awaited getOrCreate
resolved successfully (navigation is produced only from the success branch
of the creation result); on a creation failure no navigation occurs, and
the toast for an error message mentioning the token differs from the toast
for any other failure. -/
theorem claim_C4_create_before_navigate (c : VideoClient) (genId : String) :
    (createInstantMeeting (some c) genId (Except.ok ())).navigation
      = some ("/meetings/" ++ genId) ∧
    (∀ e, (createInstantMeeting (some c) genId (Except.error e)).navigation = none) ∧
    (∀ msg, stringIncludes msg "token" = true →
      (createInstantMeeting (some c) genId (Except.error (some msg))).toasts
        = [connectionNotReadyToast]) ∧
    (∀ msg, stringIncludes msg "token" = false →
      (createInstantMeeting (some c) genId (Except.error (some msg))).toasts
        = [failedCreateToast]) ∧
    (createInstantMeeting (some c) genId (Except.error none)).toasts
      = [failedCreateToast] ∧
    connectionNotReadyToast ≠ failedCreateToast := by
  refine ⟨rfl, ?_, ?_, ?_, rfl, by decide⟩
  · intro e; cases e <;> rfl
  · intro msg h; simp [createInstantMeeting, h]
  · intro msg h; simp [createInstantMeeting, h]

/-- Witness for claim C4: concrete success and failure invocations. -/
theorem claim_C4_witness :
    (createInstantMeeting (some sampleClient) "abc-123" (Except.ok ())).navigation
      = some "/meetings/abc-123" ∧
    (createInstantMeeting (some sampleClient) "abc-123"
      (Except.error (some "token expired"))).toasts = [connectionNotReadyToast] ∧
    (createInstantMeeting (some sampleClient) "abc-123"
      (Except.error (some "network down"))).toasts = [failedCreateToast] :=
  ⟨(claim_C4_create_before_navigate sampleClient "abc-123").1,
   (claim_C4_create_before_navigate sampleClient "abc-123").2.2.1
     "token expired" (by decide),
   (claim_C4_create_before_navigate sampleClient "abc-123").2.2.2.1
     "network down" (by decide)⟩

/-- Claim C8: with a ready client, joinMeeting pushes the route built from
the given id at once, with no toast and no session lookup (the function
consults no session data at all); a nonexistent id is detected only
downstream: a failed fetch in the call-lookup hook leaves the call unset
and stops loading, and the meeting page then renders the terminal
not-found view. -/
theorem claim_C8_join_no_prevalidation (c : VideoClient) (id : String)
    (_hid : id ≠ "") :
    joinMeeting (some c) id =
      { navigation := some ("/meetings/" ++ id), toasts := [] } ∧
    (∀ e, (getCall (some c) id (Except.error e) true initialCallLookupState).call
        = none ∧
      (getCall (some c) id (Except.error e) true initialCallLookupState).isCallLoading
        = false ∧
      renderMeetingPage true
        (getCall (some c) id (Except.error e) true initialCallLookupState).isCallLoading
        (getCall (some c) id (Except.error e) true initialCallLookupState).call
        false = PageRender.notFoundView) := by
  refine ⟨rfl, ?_⟩
  intro e
  cases e <;> simp [getCall, initialCallLookupState, renderMeetingPage]

/-- Witness for claim C8: a concrete join of a nonexistent id. -/
theorem claim_C8_witness :
    joinMeeting (some sampleClient) "ghost-id" =
      { navigation := some "/meetings/ghost-id", toasts := [] } ∧
    renderMeetingPage true
      (getCall (some sampleClient) "ghost-id"
        (Except.error (some "Call not found")) true initialCallLookupState).isCallLoading
      (getCall (some sampleClient) "ghost-id"
        (Except.error (some "Call not found")) true initialCallLookupState).call
      false = PageRender.notFoundView :=
  ⟨(claim_C8_join_no_prevalidation sampleClient "ghost-id" (by decide)).1,
   ((claim_C8_join_no_prevalidation sampleClient "ghost-id" (by decide)).2
     (some "Call not found")).2.2⟩

/-- Claim C10: in join mode the id handed to joinMeeting is exactly the
final slash-separated segment of the pasted text; when that final segment
is empty, pressing the button invokes neither action, performs no
navigation and emits no toast, yet the input is still cleared and the
modal still closed. -/
theorem claim_C10_modal_final_segment (meetingURL : String)
    (client : Option VideoClient) (genId : String)
    (createResult : Except (Option String) Unit) :
    (lastSegment meetingURL = "" →
      handleStart true meetingURL client genId createResult =
        { navigation := none, toasts := [], createInvoked := false
          joinInvokedWith := none, inputCleared := true, closed := true }) ∧
    (lastSegment meetingURL ≠ "" →
      (handleStart true meetingURL client genId createResult).joinInvokedWith
        = some (lastSegment meetingURL) ∧
      ∀ c, client = some c →
        (handleStart true meetingURL client genId createResult).navigation
          = some ("/meetings/" ++ lastSegment meetingURL)) := by
  constructor
  · intro h
    simp [handleStart, h]
  · intro h
    refine ⟨by simp [handleStart, h], ?_⟩
    intro c hc
    subst hc
    simp [handleStart, h, joinMeeting]

/-- Witness for claim C10: a pasted link ending in a slash is a no-op apart
from clearing and closing, and a pasted link with a final segment joins
exactly that segment. -/
theorem claim_C10_witness :
    handleStart true "https://app/meetings/" (some sampleClient) "g"
        (Except.ok ()) =
      { navigation := none, toasts := [], createInvoked := false
        joinInvokedWith := none, inputCleared := true, closed := true } ∧
    (handleStart true "https://app/meetings/xyz" (some sampleClient) "g"
        (Except.ok ())).navigation = some "/meetings/xyz" :=
  ⟨(claim_C10_modal_final_segment "https://app/meetings/" (some sampleClient)
      "g" (Except.ok ())).1 (by decide),
   ((claim_C10_modal_final_segment "https://app/meetings/xyz" (some sampleClient)
      "g" (Except.ok ())).2 (by decide)).2 sampleClient rfl⟩

/-! ## Claims about the call lookup and the role resolver -/

/-- Claim C7 (amended): the call-lookup effect retries on a fixed 1000 ms
interval only while the captured client handle is absent, with no attempt
bound — retrying stops only when the consumer unmounts (clearInterval) or
the effect re-runs; once the handle exists the session is fetched exactly
once, at the immediate invocation, and no state update happens after
unmount. (The unamended claim of a bounded retry fails: see the
counterexample.) -/
theorem claim_C7_retry_only_without_client :
    (∀ (c : VideoClient) (u : Option Nat) (k : Nat), 1 ≤ k →
      getCallInvoked (some c) u k = false) ∧
    (∀ (c : VideoClient) (u : Option Nat),
      fetchPerformed (some c) u 0 = true) ∧
    (∀ (c : VideoClient) (u : Option Nat) (k : Nat), 1 ≤ k →
      fetchPerformed (some c) u k = false) ∧
    (∀ (u : Option Nat) (k : Nat), fetchPerformed none u k = false) ∧
    (∀ (client : Option VideoClient) (u k : Nat), 1 ≤ k → u ≤ k →
      getCallInvoked client (some u) k = false) ∧
    (∀ (client : Option VideoClient) (id : String)
        (fr : Except (Option String) Unit) (s : CallLookupState),
      getCall client id fr false s = s) ∧
    retryIntervalMs = 1000 := by
  refine ⟨?_, ?_, ?_, ?_, ?_, ?_, rfl⟩
  · intro c u k hk
    cases k with
    | zero => omega
    | succ n => simp [getCallInvoked]
  · intro c u
    simp [fetchPerformed, getCallInvoked]
  · intro c u k hk
    cases k with
    | zero => omega
    | succ n => simp [fetchPerformed, getCallInvoked]
  · intro u k
    simp [fetchPerformed]
  · intro client u k hk hu
    cases k with
    | zero => omega
    | succ n =>
      simp [getCallInvoked]
      omega
  · intro client id fr s
    cases client with
    | none => rfl
    | some c => cases fr <;> simp [getCall]

/-- Witness for claim C7: the amended theorem at concrete ticks — with a
client no interval retry fires and the single fetch happens at tick 0;
without a client nothing is fetched; after an unmount at tick 2 no tick 3
invocation happens; an unmounted resolution leaves the state unchanged. -/
theorem claim_C7_witness :
    getCallInvoked (some sampleClient) none 3 = false ∧
    fetchPerformed (some sampleClient) none 0 = true ∧
    fetchPerformed none none 7 = false ∧
    getCallInvoked none (some 2) 3 = false ∧
    getCall (some sampleClient) "m1" (Except.ok ()) false initialCallLookupState
      = initialCallLookupState :=
  ⟨claim_C7_retry_only_without_client.1 sampleClient none 3 (by omega),
   claim_C7_retry_only_without_client.2.1 sampleClient none,
   claim_C7_retry_only_without_client.2.2.2.1 none 7,
   claim_C7_retry_only_without_client.2.2.2.2.1 none 2 3 (by omega) (by omega),
   claim_C7_retry_only_without_client.2.2.2.2.2.1 (some sampleClient) "m1"
     (Except.ok ()) initialCallLookupState⟩

/-- Counterexample for claim C7 as stated: the retry is not bounded — for a
consumer that never unmounts and never sees a client there is no tick
count after which the interval stops invoking getCall. -/
theorem claim_C7_counterexample :
    ¬ ∃ N : Nat, ∀ k : Nat, N < k → getCallInvoked none none k = false := by
  rintro ⟨N, hN⟩
  have h := hN (N + 1) (by omega)
  simp [getCallInvoked] at h

/-- Claim C9: the role resolver yields all-false flags with loading finished
on a loaded query with no record, reports loading on a pending query, and
the query argument built from an absent identity is the empty-string
sentinel (a total computation, nothing thrown). -/
theorem claim_C9_role_resolver :
    useUSerRole QueryResult.noUser =
      { isLoading := false, isInterviewer := false, isCandidate := false } ∧
    (useUSerRole QueryResult.pending).isLoading = true ∧
    roleQueryArg none = "" :=
  ⟨rfl, rfl, rfl⟩

/-! ## Claims about the directory sync -/

theorem firstByClerkId_patchFirst (db : List UserDoc) (cid : String)
    (args : SyncArgs) :
    firstByClerkId (patchFirst cid args db) cid =
      (firstByClerkId db cid).map (patchDoc args) := by
  induction db with
  | nil => rfl
  | cons d rest ih =>
    cases hb : (d.clerkId == cid) with
    | true =>
      simp [firstByClerkId, patchFirst, patchDoc, List.find?, hb]
    | false =>
      simpa [firstByClerkId, patchFirst, List.find?, hb] using ih

theorem patchFirst_idem (db : List UserDoc) (cid : String) (args : SyncArgs) :
    patchFirst cid args (patchFirst cid args db) = patchFirst cid args db := by
  induction db with
  | nil => rfl
  | cons d rest ih =>
    cases hb : (d.clerkId == cid) with
    | true => simp [patchFirst, hb]
    | false => simp [patchFirst, hb, ih]

theorem patchFirst_append_of_none (db l : List UserDoc) (cid : String)
    (args : SyncArgs) (h : firstByClerkId db cid = none) :
    patchFirst cid args (db ++ l) = db ++ patchFirst cid args l := by
  induction db with
  | nil => rfl
  | cons d rest ih =>
    cases hb : (d.clerkId == cid) with
    | true =>
      exfalso
      simp [firstByClerkId, List.find?, hb] at h
    | false =>
      simp only [firstByClerkId, List.find?, hb] at h
      simp [patchFirst, hb, ih h]

theorem firstByClerkId_append_of_none (db l : List UserDoc) (cid : String)
    (h : firstByClerkId db cid = none) :
    firstByClerkId (db ++ l) cid = firstByClerkId l cid := by
  induction db with
  | nil => rfl
  | cons d rest ih =>
    cases hb : (d.clerkId == cid) with
    | true =>
      exfalso
      simp [firstByClerkId, List.find?, hb] at h
    | false =>
      simp only [firstByClerkId, List.find?, hb] at h
      simpa [firstByClerkId, List.find?, hb] using ih h

theorem countByClerkId_patchFirst (db : List UserDoc) (cid : String)
    (args : SyncArgs) :
    countByClerkId (patchFirst cid args db) cid = countByClerkId db cid := by
  induction db with
  | nil => rfl
  | cons d rest ih =>
    cases hb : (d.clerkId == cid) with
    | true => simp [countByClerkId, patchFirst, List.countP_cons, hb]
    | false => simpa [countByClerkId, patchFirst, List.countP_cons, hb] using ih

theorem countByClerkId_eq_zero_of_none (db : List UserDoc) (cid : String)
    (h : firstByClerkId db cid = none) : countByClerkId db cid = 0 := by
  induction db with
  | nil => rfl
  | cons d rest ih =>
    cases hb : (d.clerkId == cid) with
    | true =>
      exfalso
      simp [firstByClerkId, List.find?, hb] at h
    | false =>
      simp only [firstByClerkId, List.find?, hb] at h
      simpa [countByClerkId, List.countP_cons, hb] using ih h

theorem one_le_countByClerkId_of_some (db : List UserDoc) (cid : String)
    (d : UserDoc) (h : firstByClerkId db cid = some d) :
    1 ≤ countByClerkId db cid := by
  induction db with
  | nil => simp [firstByClerkId, List.find?] at h
  | cons a rest ih =>
    cases hb : (a.clerkId == cid) with
    | true => simp [countByClerkId, List.countP_cons, hb]
    | false =>
      simp only [firstByClerkId, List.find?, hb] at h
      have := ih h
      simpa [countByClerkId, List.countP_cons, hb] using this

/-- Claim C5 (spec-modelled): a first sync for an external id with no record
appends exactly the fresh record carrying the supplied name, email,
external id and avatar plus role candidate and the creation timestamp; a
sync for an id with an existing record leaves a record whose name, email
and avatar are refreshed to the input while role and creation timestamp
are preserved. -/
theorem claim_C5_sync_create_and_refresh (db : List UserDoc) (args : SyncArgs)
    (now : Nat) :
    (firstByClerkId db args.clerkId = none →
      syncUser db args now = db ++ [freshUserDoc args now] ∧
      freshUserDoc args now =
        { name := args.name, email := args.email, clerkId := args.clerkId
          image := args.image, role := "candidate", createdAt := now }) ∧
    (∀ d, firstByClerkId db args.clerkId = some d →
      firstByClerkId (syncUser db args now) args.clerkId = some (patchDoc args d) ∧
      (patchDoc args d).role = d.role ∧
      (patchDoc args d).createdAt = d.createdAt ∧
      (patchDoc args d).name = args.name ∧
      (patchDoc args d).email = args.email ∧
      (patchDoc args d).image = args.image) := by
  constructor
  · intro h
    simp [syncUser, h, freshUserDoc]
  · intro d h
    refine ⟨?_, rfl, rfl, rfl, rfl, rfl⟩
    simp [syncUser, h, firstByClerkId_patchFirst]

/-- Witness for claim C5: identity u1 with an empty directory creates the
candidate record; a second sync with fresh fields refreshes them and keeps
the role. -/
theorem claim_C5_witness :
    syncUser [] { name := "A", email := "a@x", clerkId := "u1", image := none } 7 =
      [{ name := "A", email := "a@x", clerkId := "u1", image := none
         role := "candidate", createdAt := 7 }] ∧
    firstByClerkId
      (syncUser [{ name := "A", email := "a@x", clerkId := "u1", image := none
                   role := "candidate", createdAt := 7 }]
        { name := "B", email := "b@x", clerkId := "u1", image := some "pic" } 9)
      "u1" =
      some { name := "B", email := "b@x", clerkId := "u1", image := some "pic"
             role := "candidate", createdAt := 7 } :=
  ⟨by
    have h := (claim_C5_sync_create_and_refresh []
      { name := "A", email := "a@x", clerkId := "u1", image := none } 7).1 rfl
    simpa [freshUserDoc] using h.1,
   by
    have h := (claim_C5_sync_create_and_refresh
      [{ name := "A", email := "a@x", clerkId := "u1", image := none
         role := "candidate", createdAt := 7 }]
      { name := "B", email := "b@x", clerkId := "u1", image := some "pic" } 9).2
      { name := "A", email := "a@x", clerkId := "u1", image := none
        role := "candidate", createdAt := 7 } (by decide)
    simpa [patchDoc] using h.1⟩

/-- Claim C6 (spec-modelled): under the key-uniqueness invariant (at most
one record for the external id), syncing twice with identical input leaves
exactly one record for that id, the second call changes nothing, and the
non-role fields of the record still equal the input. -/
theorem claim_C6_sync_idempotent (db : List UserDoc) (args : SyncArgs)
    (now now2 : Nat) (h : countByClerkId db args.clerkId ≤ 1) :
    syncUser (syncUser db args now) args now2 = syncUser db args now ∧
    countByClerkId (syncUser db args now) args.clerkId = 1 ∧
    (∀ d, firstByClerkId (syncUser db args now) args.clerkId = some d →
      d.name = args.name ∧ d.email = args.email ∧ d.image = args.image) := by
  cases hf : firstByClerkId db args.clerkId with
  | none =>
    have hs : syncUser db args now = db ++ [freshUserDoc args now] := by
      simp [syncUser, hf]
    have hfind : firstByClerkId (db ++ [freshUserDoc args now]) args.clerkId
        = some (freshUserDoc args now) := by
      rw [firstByClerkId_append_of_none db _ _ hf]
      simp [firstByClerkId, List.find?, freshUserDoc]
    refine ⟨?_, ?_, ?_⟩
    · rw [hs]
      rw [show syncUser (db ++ [freshUserDoc args now]) args now2
            = patchFirst args.clerkId args (db ++ [freshUserDoc args now]) by
          simp [syncUser, hfind]]
      rw [patchFirst_append_of_none db _ _ _ hf]
      simp [patchFirst, freshUserDoc]
    · rw [hs]
      have h0 := countByClerkId_eq_zero_of_none db args.clerkId hf
      unfold countByClerkId at h0 ⊢
      rw [List.countP_append, h0]
      simp [freshUserDoc, List.countP_cons]
    · intro d hd
      rw [hs, hfind] at hd
      cases hd
      exact ⟨rfl, rfl, rfl⟩
  | some d0 =>
    have hs : syncUser db args now = patchFirst args.clerkId args db := by
      simp [syncUser, hf]
    have hfind : firstByClerkId (patchFirst args.clerkId args db) args.clerkId
        = some (patchDoc args d0) := by
      rw [firstByClerkId_patchFirst, hf]
      rfl
    refine ⟨?_, ?_, ?_⟩
    · rw [hs]
      rw [show syncUser (patchFirst args.clerkId args db) args now2
            = patchFirst args.clerkId args (patchFirst args.clerkId args db) by
          simp [syncUser, hfind]]
      exact patchFirst_idem db args.clerkId args
    · rw [hs]
      rw [countByClerkId_patchFirst]
      have h1 := one_le_countByClerkId_of_some db args.clerkId d0 hf
      omega
    · intro d hd
      rw [hs, hfind] at hd
      cases hd
      exact ⟨rfl, rfl, rfl⟩

/-- Witness for claim C6: two syncs of identity u1 into an empty directory
yield one unchanged candidate record whose non-role fields match the
input. -/
theorem claim_C6_witness :
    syncUser
        (syncUser [] { name := "A", email := "a@x", clerkId := "u1", image := none } 3)
        { name := "A", email := "a@x", clerkId := "u1", image := none } 8 =
      syncUser [] { name := "A", email := "a@x", clerkId := "u1", image := none } 3 ∧
    countByClerkId
        (syncUser [] { name := "A", email := "a@x", clerkId := "u1", image := none } 3)
        "u1" = 1 :=
  ⟨(claim_C6_sync_idempotent []
      { name := "A", email := "a@x", clerkId := "u1", image := none } 3 8
      (by decide)).1,
   (claim_C6_sync_idempotent []
      { name := "A", email := "a@x", clerkId := "u1", image := none } 3 8
      (by decide)).2.1⟩

end InterviewPlatform
